import Mathlib

/-
Verification of the notes-to-material grounded Q&A generation front end.

The definitions below are a shallow embedding of the TypeScript sources:
  * `types/autoqa.ts`               — the data model (statuses, marks, items, CoverageReport)
  * the deterministic mock generator (`mockGenerateQuestions`)
  * `ReviewCenter`                  — sample data, job-result mapping, approve/regenerate handlers
  * `useAutoQAGeneration`           — the primary-mark fallback
  * `AutoQAPreview`                 — `statusConfig` and the `stats` reduction
  * `lib/utils.ts`                  — `trimToSentence`

JavaScript floating scores in [0,1] are carried as natural numbers in hundredths
(0.82 becomes 82); no verified property depends on score arithmetic.
JavaScript strings are Lean `String`s; `trimToSentence` works on `List Char`
(one entry per UTF-16 unit of the short ASCII/ellipsis strings involved).
The ambient clock (`Date.now()`, `new Date().toISOString()`) is passed in
explicitly as parameters `ts` / `now`.
-/

namespace NotesToMaterial

/-- Review status of a generated question (`types/autoqa.ts`, `QuestionStatus`). -/
inductive QuestionStatus
  | FOUND
  | NOT_FOUND
  | NEEDS_REVIEW
  | APPROVED
deriving DecidableEq, Repr

/-- Answer format (`types/autoqa.ts`, `AnswerFormat`). -/
inductive AnswerFormat
  | concise
  | structured
  | detailed
deriving DecidableEq, Repr

/-- Allowed mark values `2 | 5 | 10` (`types/autoqa.ts`, `QuestionMarks`). -/
inductive QuestionMarks
  | m2
  | m5
  | m10
deriving DecidableEq, Repr

/-- Numeric value of a mark. -/
def QuestionMarks.val : QuestionMarks → Nat
  | .m2 => 2
  | .m5 => 5
  | .m10 => 10

/-- Retrieval score entry (`types/autoqa.ts`, `RetrievalScore`); `score` is in hundredths. -/
structure RetrievalScore where
  source : String
  score : Nat
deriving DecidableEq, Repr

/-- `types/autoqa.ts`, `GenerationMetadata`. -/
structure GenerationMetadata where
  prompt_template : String
  model : String
  generated_at : String
deriving DecidableEq, Repr

/-- `types/autoqa.ts`, `GeneratedQuestion` — the central generated item. -/
structure GeneratedQuestion where
  question_id : String
  question_text : String
  marks : QuestionMarks
  answer : String
  answer_format : AnswerFormat
  page_references : List String
  diagram_images : List String
  verbatim_quotes : List String
  status : QuestionStatus
  retrieval_scores : List RetrievalScore
  generation_metadata : GenerationMetadata
deriving DecidableEq, Repr

/-- `types/autoqa.ts`, `QAPreviewItem` — the preview projection of an item. -/
structure QAPreviewItem where
  question_id : String
  question_text : String
  marks : QuestionMarks
  status : QuestionStatus
  page_count : Nat
  confidence_score : Option Nat
deriving DecidableEq, Repr

/-- `types/autoqa.ts`, `CoverageReport` — exactly the three fields of the source record. -/
structure CoverageReport where
  total_questions : Nat
  found_count : Nat
  not_found_count : Nat
deriving DecidableEq, Repr

/-- The spec's fixed closed mark-to-format mapping (2→concise, 5→structured, 10→detailed),
stated from the spec's words for comparison with the code's per-site mappings. -/
def specAnswerFormat : QuestionMarks → AnswerFormat
  | .m2 => .concise
  | .m5 => .structured
  | .m10 => .detailed

/-- Loop body of the deterministic mock generator (`mockGenerateQuestions`):
the question built for `mark` at loop index `i`; `ts` is the `Date.now()` reading
and `now` the ISO timestamp captured at entry. -/
def mockItem (now : String) (ts : Nat) (mark : QuestionMarks) (i : Nat) : GeneratedQuestion :=
  let status : QuestionStatus :=
    if i % 5 = 0 then .NOT_FOUND else if i % 3 = 0 then .NEEDS_REVIEW else .FOUND
  let pageRefs : List String := if status = .NOT_FOUND then [] else ["notes_ch1.pdf:3"]
  { question_id := "auto:" ++ toString mark.val ++ "-" ++ toString i ++ "-" ++ toString ts
    question_text := "Sample " ++ toString mark.val ++ "M question " ++ toString (i + 1)
    marks := mark
    answer := if status = .NOT_FOUND then "" else
      "Sample answer for a " ++ toString mark.val ++ " mark question derived from notes page 3."
    answer_format := if mark = .m2 then .concise else if mark = .m5 then .structured else .detailed
    page_references := pageRefs
    diagram_images := []
    verbatim_quotes := if pageRefs.length ≠ 0 then ["Definition of X — notes_ch1.pdf:3"] else []
    status := status
    retrieval_scores := pageRefs.map (fun p => { source := p, score := 82 })
    generation_metadata :=
      { prompt_template := "notes_gqa_v1", model := "gemini-1.5-pro", generated_at := now } }

/-- Preview entry pushed alongside each mock question. -/
def mockPreviewItem (q : GeneratedQuestion) : QAPreviewItem :=
  { question_id := q.question_id
    question_text := q.question_text
    marks := q.marks
    status := q.status
    page_count := q.page_references.length
    confidence_score := q.retrieval_scores.head?.map RetrievalScore.score }

/-- The deterministic mock generator (front-end mock of the generation pipeline). -/
def mockGenerateQuestions (marks : List QuestionMarks) (questionsPerMark : QuestionMarks → Nat)
    (now : String) (ts : Nat) : List GeneratedQuestion × List QAPreviewItem :=
  let questions :=
    marks.flatMap (fun mark => (List.range (questionsPerMark mark)).map (mockItem now ts mark))
  (questions, questions.map mockPreviewItem)

/-- `[2, 5, 10][i % 3]` indexing used by the ReviewCenter sample data. -/
def sampleMark (i : Nat) : QuestionMarks :=
  if i % 3 = 0 then .m2 else if i % 3 = 1 then .m5 else .m10

/-- `["FOUND", "NOT_FOUND", "NEEDS_REVIEW"][i % 3]` indexing of the sample data. -/
def sampleStatus (i : Nat) : QuestionStatus :=
  if i % 3 = 0 then .FOUND else if i % 3 = 1 then .NOT_FOUND else .NEEDS_REVIEW

/-- `["concise", "structured", "detailed"][i % 3]` indexing of the sample data. -/
def sampleFormat (i : Nat) : AnswerFormat :=
  if i % 3 = 0 then .concise else if i % 3 = 1 then .structured else .detailed

/-- One entry of `sampleAutoQAQuestions` (ReviewCenter sample data, index `i`). -/
def sampleItem (now : String) (i : Nat) : GeneratedQuestion :=
  { question_id := "auto-" ++ toString (i + 1)
    question_text := "Explain stack ADT with operations (Q" ++ toString (i + 1) ++ ")."
    marks := sampleMark i
    answer :=
      if i % 3 = 0 then "A stack is a linear data structure that follows LIFO principle..." else ""
    answer_format := sampleFormat i
    page_references :=
      if i % 3 = 0 then ["notes_ch" ++ toString (i / 3 + 1) ++ ".pdf:" ++ toString (i + 3)] else []
    diagram_images :=
      if i % 4 = 0 then ["notes_ch" ++ toString (i / 4 + 1) ++ ".pdf:" ++ toString (i + 5)] else []
    verbatim_quotes :=
      if i % 3 = 0 then
        ["\"Stack follows LIFO principle\" — notes_ch" ++ toString (i / 3 + 1) ++ ".pdf:" ++
          toString (i + 3)]
      else []
    status := sampleStatus i
    retrieval_scores :=
      if i % 3 = 0 then
        [{ source := "notes_ch" ++ toString (i / 3 + 1) ++ ".pdf:" ++ toString (i + 3),
           score := 85 + i % 10 }]
      else []
    generation_metadata :=
      { prompt_template := "notes_gqa_v1", model := "gemini-1.5-pro", generated_at := now } }

/-- `sampleAutoQAQuestions` (ReviewCenter): 24 sample items. -/
def sampleAutoQAQuestions (now : String) : List GeneratedQuestion :=
  (List.range 24).map (sampleItem now)

/-- The ReviewCenter Approve button handler: mark the active item `APPROVED`
(`setDynamicItems(prev => prev.map(it => it.question_id === activeId ? { ...it, status: 'APPROVED' } : it))`). -/
def approveItem (items : List GeneratedQuestion) (activeId : String) : List GeneratedQuestion :=
  items.map (fun it => if it.question_id = activeId then { it with status := .APPROVED } else it)

/-- The ReviewCenter Regenerate handlers: replace the active item's answer, keep all other
fields (both handlers leave `status` untouched). -/
def regenUpdate (items : List GeneratedQuestion) (activeId : String) (newAns : String) :
    List GeneratedQuestion :=
  items.map (fun it => if it.question_id = activeId then { it with answer := newAns } else it)

/-- ReviewCenter `getJobResults` marks coercion:
`Number(mark) === 5 ? 5 : Number(mark) === 10 ? 10 : 2`. -/
def coerceMark (n : Nat) : QuestionMarks :=
  if n = 5 then .m5 else if n = 10 then .m10 else .m2

/-- ReviewCenter `getJobResults` answer format, computed from the raw mark key:
`Number(mark) === 2 ? 'concise' : Number(mark) === 5 ? 'structured' : 'detailed'`. -/
def rawFormat (n : Nat) : AnswerFormat :=
  if n = 2 then .concise else if n = 5 then .structured else .detailed

/-- A row of the backend `getJobResults` payload as consumed by ReviewCenter
(`answers` maps numeric mark keys to answer strings). -/
structure BackendRow where
  id : Option String
  question : Option String
  question_text : Option String
  answers : Option (List (Nat × String))
  answer : String
  page_references : List String
deriving DecidableEq, Repr

/-- One generated item built by the ReviewCenter `getJobResults` mapping from one
`Object.entries(answers)` entry. -/
def mapAnswerEntry (rowId question : String) (pageRefs : List String) (now : String)
    (entry : Nat × String) : GeneratedQuestion :=
  { question_id := rowId ++ "-" ++ toString entry.1
    question_text := question
    marks := coerceMark entry.1
    answer := entry.2
    answer_format := rawFormat entry.1
    page_references := pageRefs
    diagram_images := []
    verbatim_quotes := []
    status := .FOUND
    retrieval_scores := []
    generation_metadata := { prompt_template := "runtime", model := "gemini", generated_at := now } }

/-- The full ReviewCenter `getJobResults` mapping (`results.flatMap(...)` with the
`it.answers || { '2': it.answer }` and id/question fallbacks). -/
def mapJobResults (rows : List BackendRow) (now : String) : List GeneratedQuestion :=
  rows.enum.flatMap (fun p =>
    let row := p.2
    let rowId := row.id.getD ("gen-" ++ toString (p.1 + 1))
    let q := (row.question.or row.question_text).getD "Generated question"
    (row.answers.getD [(2, row.answer)]).map (mapAnswerEntry rowId q row.page_references now))

/-- `useAutoQAGeneration` primary-mark pick: `['10','5','2'].filter(k => it.answers[k])`,
falling back to `opts.marks[0] || 2` (a JS empty-string answer is falsy). -/
def primaryMark (answers : List (Nat × String)) (optsMarks : List QuestionMarks) : QuestionMarks :=
  let markKeys := [10, 5, 2].filter (fun k => ((answers.lookup k).getD "") != "")
  match markKeys with
  | k :: _ => if k = 10 then .m10 else if k = 5 then .m5 else .m2
  | [] => optsMarks.headD .m2

/-- Icon/color/label entry of the `AutoQAPreview` `statusConfig` record. -/
structure StatusConfig where
  icon : String
  color : String
  label : String
deriving DecidableEq, Repr

/-- `AutoQAPreview` `statusConfig`: the record literal declares entries for the three
generation statuses only, so the JS lookup at `APPROVED` yields `undefined` (`none`). -/
def statusConfig : QuestionStatus → Option StatusConfig
  | .FOUND => some { icon := "CheckCircle2", color := "text-green-600", label := "Found" }
  | .NOT_FOUND => some { icon := "AlertCircle", color := "text-red-600", label := "Not Found" }
  | .NEEDS_REVIEW => some { icon := "Clock", color := "text-yellow-600", label := "Needs Review" }
  | .APPROVED => none

/-- A JavaScript numeric object slot: absent (`undefined`), `NaN`, or a number. -/
inductive JSVal
  | undef
  | nan
  | num (n : Nat)
deriving DecidableEq, Repr

/-- `slot++` on a JS object: incrementing `undefined` gives `NaN`, `NaN` stays `NaN`. -/
def jsInc : JSVal → JSVal
  | .undef => .nan
  | .nan => .nan
  | .num n => .num (n + 1)

/-- The `stats` accumulator object of `AutoQAPreview` (one slot per status key). -/
structure StatsAcc where
  found : JSVal
  not_found : JSVal
  needs_review : JSVal
  approved : JSVal
deriving DecidableEq, Repr

/-- `acc[item.status]++` of the `AutoQAPreview` reduction. -/
def statsStep (acc : StatsAcc) (s : QuestionStatus) : StatsAcc :=
  match s with
  | .FOUND => { acc with found := jsInc acc.found }
  | .NOT_FOUND => { acc with not_found := jsInc acc.not_found }
  | .NEEDS_REVIEW => { acc with needs_review := jsInc acc.needs_review }
  | .APPROVED => { acc with approved := jsInc acc.approved }

/-- The initial accumulator `{ FOUND: 0, NOT_FOUND: 0, NEEDS_REVIEW: 0 }`
(no `APPROVED` key, hence `undef`). -/
def initStats : StatsAcc :=
  { found := .num 0, not_found := .num 0, needs_review := .num 0, approved := .undef }

/-- The `AutoQAPreview` `stats` reduction over the item list. -/
def stats (items : List QAPreviewItem) : StatsAcc :=
  items.foldl (fun acc it => statsStep acc it.status) initStats

/-- Number of items carrying status `s` in a preview batch. -/
def countStatus (items : List QAPreviewItem) (s : QuestionStatus) : Nat :=
  items.countP (fun it => it.status == s)

/-- `n`-fold JS increment. -/
def jsIncN : Nat → JSVal → JSVal
  | 0, v => v
  | n + 1, v => jsIncN n (jsInc v)

/-- Number of `NEEDS_REVIEW` items in a generated batch. -/
def needsReviewCount (items : List GeneratedQuestion) : Nat :=
  items.countP (fun it => it.status == .NEEDS_REVIEW)

/-- Modelled from the spec: the Coverage Aggregator of §4.6
(`aggregate(items) -> CoverageReport`). The repository sources contain the
`CoverageReport` record but no code deriving it from a batch, so the reduction is
taken from the spec's words, targeting the repository's three-field record. -/
def aggregateCoverage (items : List GeneratedQuestion) : CoverageReport :=
  { total_questions := items.length
    found_count := items.countP (fun it => it.status == .FOUND)
    not_found_count := items.countP (fun it => it.status == .NOT_FOUND) }

/-- Concrete preview fixture: a `FOUND` item. -/
def pvFound : QAPreviewItem :=
  { question_id := "q1", question_text := "t", marks := .m2, status := .FOUND,
    page_count := 1, confidence_score := some 82 }

/-- Concrete preview fixture: a `NOT_FOUND` item. -/
def pvNotFound : QAPreviewItem :=
  { question_id := "q2", question_text := "t", marks := .m5, status := .NOT_FOUND,
    page_count := 0, confidence_score := none }

/-- Concrete preview fixture: an `APPROVED` item. -/
def pvApproved : QAPreviewItem :=
  { question_id := "q3", question_text := "t", marks := .m10, status := .APPROVED,
    page_count := 0, confidence_score := none }

/-- Modelled from the spec: a retrieval hit (§3, `RetrievalHit`) — a page identity and
its relevance score (hundredths); the backend Retriever is not in the repository. -/
structure RetrievalHit where
  doc : String
  page : Nat
  score : Nat
deriving DecidableEq, Repr

/-- Modelled from the spec: one Generation Client response (§4.3) — transient
unavailability, malformed garbage, or raw text output. -/
inductive GenOutcome
  | unavailable
  | malformed
  | output (raw : String)

/-- Modelled from the spec: a parsed model payload (§4.4, step 2). -/
structure ParsedPayload where
  question : String
  answer : String
  page_references : List String
  verbatim_quotes : List String

/-- Result of one item's pipeline run, instrumented with the number of
Generation Client calls made. -/
structure PipelineResult where
  status : QuestionStatus
  answer_text : String
  page_references : List String
  client_calls : Nat
deriving DecidableEq, Repr

/-- Modelled from the spec: the Schema Validator & Repair Loop (§4.4); the backend
implementation is not in the repository. `client attemptIdx` is the Generation Client,
`parse` the schema parser, `classify` the Grounding Classifier; exhausting the attempt
budget degrades to `NOT_FOUND` with an empty answer. -/
def validatorLoop (client : Nat → GenOutcome) (parse : String → Option ParsedPayload)
    (classify : ParsedPayload → QuestionStatus × String × List String) :
    Nat → Nat → PipelineResult
  | 0, calls => { status := .NOT_FOUND, answer_text := "", page_references := [], client_calls := calls }
  | fuel + 1, calls =>
    match client calls with
    | .unavailable => validatorLoop client parse classify fuel (calls + 1)
    | .malformed => validatorLoop client parse classify fuel (calls + 1)
    | .output raw =>
      match parse raw with
      | none => validatorLoop client parse classify fuel (calls + 1)
      | some p =>
        let r := classify p
        { status := r.1, answer_text := r.2.1, page_references := r.2.2, client_calls := calls + 1 }

/-- Modelled from the spec: one item's generation pipeline (§§4.2–4.4); the backend
implementation is not in the repository. If the retrieved hit set is empty the Prompt
Assembler flags the request `ungroundable` and the Validator short-circuits to
`NOT_FOUND` without ever invoking the Generation Client; otherwise the retry/repair
loop runs within `maxAttempts`. -/
def runItemPipeline (topic : String) (mark : QuestionMarks) (strictSourcing : Bool)
    (hits : List RetrievalHit) (client : Nat → GenOutcome)
    (parse : String → Option ParsedPayload)
    (classify : ParsedPayload → QuestionStatus × String × List String)
    (maxAttempts : Nat) : PipelineResult :=
  if hits.isEmpty then
    { status := .NOT_FOUND, answer_text := "", page_references := [], client_calls := 0 }
  else
    validatorLoop client parse classify maxAttempts 0

/-- The sentence-ending punctuation class `[.!?]` of `trimToSentence`. -/
def isPunct (c : Char) : Bool :=
  c = '.' || c = '!' || c = '?'

/-- Whitespace as removed by JS `String.prototype.trim`. -/
def isWs (c : Char) : Bool :=
  c = ' ' || c = '\t' || c = '\n' || c = '\r'

/-- Leading-whitespace removal. -/
def ltrim (l : List Char) : List Char :=
  l.dropWhile isWs

/-- Trailing-whitespace removal. -/
def rtrim (l : List Char) : List Char :=
  (l.reverse.dropWhile isWs).reverse

/-- JS `String.prototype.trim`. -/
def jsTrim (l : List Char) : List Char :=
  ltrim (rtrim l)

/-- Scanner state for the regex `/[^.!?]+[.!?]+/g`: between matches, inside the
non-punctuation block, or inside the trailing punctuation block. -/
inductive ScanState
  | idle
  | inText (buf : List Char)
  | inPunct (buf : List Char) (pbuf : List Char)

/-- One character step of the `/[^.!?]+[.!?]+/g` scan. -/
def scanStep (st : List (List Char) × ScanState) (c : Char) : List (List Char) × ScanState :=
  match st with
  | (ms, .idle) => if isPunct c then (ms, .idle) else (ms, .inText [c])
  | (ms, .inText buf) =>
    if isPunct c then (ms, .inPunct buf [c]) else (ms, .inText (buf ++ [c]))
  | (ms, .inPunct buf pbuf) =>
    if isPunct c then (ms, .inPunct buf (pbuf ++ [c]))
    else (ms ++ [buf ++ pbuf], .inText [c])

/-- All matches of `/[^.!?]+[.!?]+/g` on `l`, in order. -/
def sentMatches (l : List Char) : List (List Char) :=
  match l.foldl scanStep ([], .idle) with
  | (ms, .inPunct buf pbuf) => ms ++ [buf ++ pbuf]
  | (ms, _) => ms

/-- `text.match(/[^.!?]+[.!?]+/g) || [text]` of `trimToSentence`. -/
def sentencesOf (l : List Char) : List (List Char) :=
  match sentMatches l with
  | [] => [l]
  | ms => ms

/-- The sentence-accumulation loop of `trimToSentence`:
`for (const s of sentences) { if ((out + s).length > maxChars) break; out += s.trim() + ' '; }`. -/
def buildOut (maxChars : Nat) : List (List Char) → List Char → List Char
  | [], out => out
  | s :: rest, out =>
    if maxChars < (out ++ s).length then out
    else buildOut maxChars rest ((out ++ jsTrim s) ++ [' '])

/-- JS `str.slice(0, stop)` (a negative `stop` counts from the end). -/
def jsSliceTo (l : List Char) (stop : Int) : List Char :=
  let e : Int := if stop < 0 then (l.length : Int) + stop else stop
  l.take e.toNat

/-- JS `str.lastIndexOf(c)` (−1 when absent). -/
def jsLastIndexOf (l : List Char) (c : Char) : Int :=
  match l.reverse.findIdx? (fun x => x == c) with
  | none => -1
  | some i => (l.length : Int) - 1 - (i : Int)

/-- `lib/utils.ts` `trimToSentence(text, maxChars)`. -/
def trimToSentence (text : List Char) (maxChars : Nat) : List Char :=
  if text.length ≤ maxChars then text
  else
    let out := jsTrim (buildOut maxChars (sentencesOf text) [])
    if out = [] then
      let slice := jsSliceTo text ((maxChars : Int) - 1)
      let lastSpace := jsLastIndexOf slice ' '
      jsTrim (if (40 : Int) < lastSpace then slice.take lastSpace.toNat else slice) ++ ['…']
    else if out.length < text.length then out ++ ['…']
    else out

/-- A mock item whose status is `NOT_FOUND` has an empty answer and no references. -/
theorem mockItem_notFound (now : String) (ts : Nat) (mark : QuestionMarks) (i : Nat)
    (h : (mockItem now ts mark i).status = .NOT_FOUND) :
    (mockItem now ts mark i).answer = "" ∧ (mockItem now ts mark i).page_references = [] := by
  by_cases h5 : i % 5 = 0
  · simp [mockItem, h5]
  · by_cases h3 : i % 3 = 0 <;> simp [mockItem, h5, h3] at h

/-- A sample item whose status is `NOT_FOUND` has an empty answer and no references. -/
theorem sampleItem_notFound (now : String) (i : Nat)
    (h : (sampleItem now i).status = .NOT_FOUND) :
    (sampleItem now i).answer = "" ∧ (sampleItem now i).page_references = [] := by
  by_cases h0 : i % 3 = 0
  · simp [sampleItem, sampleStatus, h0] at h
  · simp [sampleItem, h0]

/-- C1: every `GeneratedItem` produced by the generation mocks (the deterministic mock
generator and the ReviewCenter sample batch) with status `NOT_FOUND` has
`answer_text = ""` and `page_references = []`. -/
theorem mock_and_sample_notFound_invariant :
    (∀ (marks : List QuestionMarks) (qpm : QuestionMarks → Nat) (now : String) (ts : Nat)
        (q : GeneratedQuestion), q ∈ (mockGenerateQuestions marks qpm now ts).1 →
        q.status = .NOT_FOUND → q.answer = "" ∧ q.page_references = []) ∧
    (∀ (now : String) (q : GeneratedQuestion), q ∈ sampleAutoQAQuestions now →
        q.status = .NOT_FOUND → q.answer = "" ∧ q.page_references = []) := by
  constructor
  · intro marks qpm now ts q hq hst
    have hq2 : q ∈ marks.flatMap
        (fun mark => (List.range (qpm mark)).map (mockItem now ts mark)) := hq
    rcases List.mem_flatMap.mp hq2 with ⟨mark, _, hq3⟩
    rcases List.mem_map.mp hq3 with ⟨i, _, rfl⟩
    exact mockItem_notFound now ts mark i hst
  · intro now q hq hst
    have hq2 : q ∈ (List.range 24).map (sampleItem now) := hq
    rcases List.mem_map.mp hq2 with ⟨i, _, rfl⟩
    exact sampleItem_notFound now i hst

/-- C1 witness: in a one-question mock batch the generated item is `NOT_FOUND`, and the
invariant gives its empty answer and empty reference list. -/
theorem mock_and_sample_notFound_invariant_witness :
    (mockItem "t" 0 .m2 0) ∈ (mockGenerateQuestions [.m2] (fun _ => 1) "t" 0).1 ∧
    (mockItem "t" 0 .m2 0).status = .NOT_FOUND ∧
    ((mockItem "t" 0 .m2 0).answer = "" ∧ (mockItem "t" 0 .m2 0).page_references = []) :=
  ⟨by decide, by decide,
    mock_and_sample_notFound_invariant.1 [.m2] (fun _ => 1) "t" 0 _ (by decide) (by decide)⟩

/-- C2 counterexample: the ReviewCenter Approve handler moves an item whose current
status is `NOT_FOUND` straight to `APPROVED` — the handler performs no state-machine
validation. -/
theorem approveItem_from_notFound_counterexample :
    (sampleItem "t" 1).status = .NOT_FOUND ∧
    (approveItem [sampleItem "t" 1] "auto-2").map GeneratedQuestion.status = [.APPROVED] := by
  constructor
  · decide
  · decide

/-- C2 (amended): `APPROVED` is set only by the explicit reviewer approve action — the
regenerate handlers never change a status — but the approve handler sets `APPROVED`
regardless of the item's current status (including `NOT_FOUND`), leaving other items
unchanged. -/
theorem approveItem_sets_approved_unconditionally :
    (∀ (items : List GeneratedQuestion) (aid : String) (it : GeneratedQuestion),
        it ∈ items → it.question_id = aid →
        { it with status := .APPROVED } ∈ approveItem items aid) ∧
    (∀ (items : List GeneratedQuestion) (aid : String) (it : GeneratedQuestion),
        it ∈ items → it.question_id ≠ aid → it ∈ approveItem items aid) ∧
    (∀ (items : List GeneratedQuestion) (aid : String) (it2 : GeneratedQuestion),
        it2 ∈ approveItem items aid → it2.status = .APPROVED ∨ it2 ∈ items) ∧
    (∀ (items : List GeneratedQuestion) (aid newAns : String) (it2 : GeneratedQuestion),
        it2 ∈ regenUpdate items aid newAns →
        ∃ it ∈ items, it2.status = it.status ∧ it2.question_id = it.question_id) := by
  refine ⟨?_, ?_, ?_, ?_⟩
  · intro items aid it hmem hid
    exact List.mem_map.mpr ⟨it, hmem, by rw [if_pos hid]⟩
  · intro items aid it hmem hid
    exact List.mem_map.mpr ⟨it, hmem, by rw [if_neg hid]⟩
  · intro items aid it2 hmem
    rcases List.mem_map.mp hmem with ⟨it, hit, heq⟩
    by_cases hid : it.question_id = aid
    · left; rw [if_pos hid] at heq; rw [← heq]
    · right; rw [if_neg hid] at heq; rwa [← heq]
  · intro items aid newAns it2 hmem
    rcases List.mem_map.mp hmem with ⟨it, hit, heq⟩
    by_cases hid : it.question_id = aid
    · rw [if_pos hid] at heq
      exact ⟨it, hit, by rw [← heq], by rw [← heq]⟩
    · rw [if_neg hid] at heq
      exact ⟨it, hit, by rw [← heq], by rw [← heq]⟩

/-- C2 witness: approving the `NOT_FOUND` sample item "auto-2" puts its `APPROVED`
version in the output batch. -/
theorem approveItem_sets_approved_witness :
    (sampleItem "t" 1) ∈ [sampleItem "t" 1] ∧
    { sampleItem "t" 1 with status := .APPROVED } ∈ approveItem [sampleItem "t" 1] "auto-2" :=
  ⟨by decide,
    approveItem_sets_approved_unconditionally.1 [sampleItem "t" 1] "auto-2" (sampleItem "t" 1)
      (by decide) (by decide)⟩

/-- C3 counterexample: a caller-supplied mark of 7 is not rejected — the job-result
mapping silently coerces it to mark 2 and yields an ordinary `FOUND` item, and the
generation hook's primary-mark fallback likewise defaults to 2. -/
theorem invalid_mark_coerced_counterexample :
    coerceMark 7 = .m2 ∧
    (mapAnswerEntry "r1" "Q" [] "t" (7, "ans")).marks = .m2 ∧
    (mapAnswerEntry "r1" "Q" [] "t" (7, "ans")).status = .FOUND ∧
    primaryMark [] [] = .m2 := by
  refine ⟨by decide, by decide, by decide, by decide⟩

/-- C3 (amended): no `InvalidArgument` rejection exists in the code — any mark value
other than 5 or 10 supplied in a job-result answers entry is silently coerced to 2 and
the entry is processed as a normal `FOUND` item. -/
theorem invalid_mark_fallback_to_two (id q now ans : String) (refs : List String) (n : Nat)
    (h5 : n ≠ 5) (h10 : n ≠ 10) :
    (mapAnswerEntry id q refs now (n, ans)).marks = .m2 ∧
    (mapAnswerEntry id q refs now (n, ans)).status = .FOUND := by
  simp [mapAnswerEntry, coerceMark, h5, h10]

/-- C3 witness: mark 7 is coerced to 2 and processed. -/
theorem invalid_mark_fallback_witness :
    (7 : Nat) ≠ 5 ∧ (7 : Nat) ≠ 10 ∧
    ((mapAnswerEntry "r1" "Q" [] "t" (7, "ans")).marks = .m2 ∧
      (mapAnswerEntry "r1" "Q" [] "t" (7, "ans")).status = .FOUND) :=
  ⟨by decide, by decide,
    invalid_mark_fallback_to_two "r1" "Q" "t" "ans" [] 7 (by decide) (by decide)⟩

/-- C4: the mock generator's output depends on the `Date.now()` reading — with the
inputs fixed, two calls at consecutive timestamps give different question ids, so the
outputs are not identical (contradicting the generator's own "deterministic" comment). -/
theorem mockGenerateQuestions_timestamp_dependent :
    (mockGenerateQuestions [.m2] (fun _ => 1) "iso" 0).1.map GeneratedQuestion.question_id
      = ["auto:2-0-0"] ∧
    (mockGenerateQuestions [.m2] (fun _ => 1) "iso" 1).1.map GeneratedQuestion.question_id
      = ["auto:2-0-1"] ∧
    mockGenerateQuestions [.m2] (fun _ => 1) "iso" 0 ≠
      mockGenerateQuestions [.m2] (fun _ => 1) "iso" 1 := by
  refine ⟨by decide, by decide, by decide⟩

/-- Closed form of the `stats` fold from an arbitrary accumulator. -/
theorem stats_foldl (items : List QAPreviewItem) : ∀ acc : StatsAcc,
    items.foldl (fun acc it => statsStep acc it.status) acc =
      { found := jsIncN (countStatus items .FOUND) acc.found
        not_found := jsIncN (countStatus items .NOT_FOUND) acc.not_found
        needs_review := jsIncN (countStatus items .NEEDS_REVIEW) acc.needs_review
        approved := jsIncN (countStatus items .APPROVED) acc.approved } := by
  induction items with
  | nil => intro acc; simp [countStatus, jsIncN]
  | cons it rest ih =>
    intro acc
    rw [List.foldl_cons, ih]
    cases hst : it.status <;>
      simp [countStatus, statsStep, List.countP_cons, hst, jsIncN]

/-- `n` JS increments on a number add `n`. -/
theorem jsIncN_num (n : Nat) : ∀ k : Nat, jsIncN n (.num k) = .num (k + n) := by
  induction n with
  | zero => intro k; simp [jsIncN]
  | succ n ih =>
    intro k
    show jsIncN n (jsInc (.num k)) = JSVal.num (k + (n + 1))
    rw [show jsInc (JSVal.num k) = .num (k + 1) from rfl, ih]
    congr 1
    omega

/-- JS increments leave `NaN` alone. -/
theorem jsIncN_nan (n : Nat) : jsIncN n .nan = .nan := by
  induction n with
  | zero => rfl
  | succ n ih => exact ih

/-- JS increments on a missing slot: still missing after zero increments, `NaN` after any. -/
theorem jsIncN_undef (n : Nat) : jsIncN n .undef = if n = 0 then .undef else .nan := by
  cases n with
  | zero => rfl
  | succ n => simp [jsIncN, jsInc, jsIncN_nan]

/-- The `AutoQAPreview` reduction counts each of the three declared statuses, and its
`APPROVED` slot is `undefined` for a batch without approved items and `NaN` otherwise. -/
theorem stats_eq (items : List QAPreviewItem) :
    stats items =
      { found := .num (countStatus items .FOUND)
        not_found := .num (countStatus items .NOT_FOUND)
        needs_review := .num (countStatus items .NEEDS_REVIEW)
        approved := if countStatus items .APPROVED = 0 then .undef else .nan } := by
  rw [stats, stats_foldl]
  simp only [initStats]
  rw [jsIncN_num, jsIncN_num, jsIncN_num, jsIncN_undef]
  simp

/-- C5: the coverage aggregation of `AutoQAPreview` is order-independent — permuting the
item batch leaves the whole `stats` record unchanged. -/
theorem stats_perm_invariant (l1 l2 : List QAPreviewItem) (h : l1.Perm l2) :
    stats l1 = stats l2 := by
  rw [stats_eq, stats_eq]
  have hc : ∀ s, countStatus l1 s = countStatus l2 s := fun _ => h.countP_eq _
  rw [hc .FOUND, hc .NOT_FOUND, hc .NEEDS_REVIEW, hc .APPROVED]

/-- C5 witness: swapping a two-item batch leaves the stats record unchanged. -/
theorem stats_perm_invariant_witness :
    ([pvFound, pvNotFound].Perm [pvNotFound, pvFound]) ∧
    stats [pvFound, pvNotFound] = stats [pvNotFound, pvFound] :=
  ⟨List.Perm.swap pvNotFound pvFound [],
    stats_perm_invariant _ _ (List.Perm.swap pvNotFound pvFound [])⟩

/-- C6 counterexample: the job-result mapping with raw mark key 3 stores mark 2 on the
item but answer format `detailed`, so the item's format disagrees with the fixed
mapping applied to its own mark value. -/
theorem answer_format_mismatch_counterexample :
    (mapAnswerEntry "r1" "Q" [] "t" (3, "a")).marks = .m2 ∧
    (mapAnswerEntry "r1" "Q" [] "t" (3, "a")).answer_format = .detailed ∧
    specAnswerFormat .m2 = .concise ∧
    (mapAnswerEntry "r1" "Q" [] "t" (3, "a")).answer_format ≠
      specAnswerFormat (mapAnswerEntry "r1" "Q" [] "t" (3, "a")).marks := by
  refine ⟨by decide, by decide, by decide, by decide⟩

/-- C6 (amended): mock-generated and sample items always carry the answer format given
by the fixed mapping 2→concise / 5→structured / 10→detailed of their mark value; items
mapped from job results do so exactly when the raw mark key is 2, 5 or 10 (any other
key coerces the stored mark to 2 while the format defaults to `detailed`). -/
theorem answer_format_fixed_mapping :
    (∀ (now : String) (ts : Nat) (mark : QuestionMarks) (i : Nat),
        (mockItem now ts mark i).answer_format =
          specAnswerFormat (mockItem now ts mark i).marks) ∧
    (∀ (now : String) (i : Nat),
        (sampleItem now i).answer_format = specAnswerFormat (sampleItem now i).marks) ∧
    (∀ (id q now ans : String) (refs : List String) (n : Nat), n = 2 ∨ n = 5 ∨ n = 10 →
        (mapAnswerEntry id q refs now (n, ans)).answer_format =
          specAnswerFormat (mapAnswerEntry id q refs now (n, ans)).marks) := by
  refine ⟨?_, ?_, ?_⟩
  · intro now ts mark i
    cases mark <;> simp [mockItem, specAnswerFormat]
  · intro now i
    by_cases h0 : i % 3 = 0
    · simp [sampleItem, sampleFormat, sampleMark, h0, specAnswerFormat]
    · by_cases h1 : i % 3 = 1 <;>
        simp [sampleItem, sampleFormat, sampleMark, h0, h1, specAnswerFormat]
  · intro id q now ans refs n hn
    rcases hn with rfl | rfl | rfl <;>
      simp [mapAnswerEntry, coerceMark, rawFormat, specAnswerFormat]

/-- C6 witness: a job-result entry with raw mark 2 satisfies the fixed mapping. -/
theorem answer_format_fixed_mapping_witness :
    ((2 : Nat) = 2 ∨ (2 : Nat) = 5 ∨ (2 : Nat) = 10) ∧
    (mapAnswerEntry "r" "Q" [] "t" (2, "a")).answer_format =
      specAnswerFormat (mapAnswerEntry "r" "Q" [] "t" (2, "a")).marks :=
  ⟨Or.inl rfl, answer_format_fixed_mapping.2.2 "r" "Q" "t" "a" [] 2 (Or.inl rfl)⟩

/-- C7 counterexample: two one-item batches — a `NEEDS_REVIEW` item versus the same item
approved — have different needs-review counts but identical coverage reports, so the
repository's three-field `CoverageReport` carries no needs-review count. -/
theorem coverageReport_missing_needs_review_counterexample :
    aggregateCoverage [sampleItem "t" 5] =
      aggregateCoverage (approveItem [sampleItem "t" 5] "auto-6") ∧
    needsReviewCount [sampleItem "t" 5] = 1 ∧
    needsReviewCount (approveItem [sampleItem "t" 5] "auto-6") = 0 := by
  refine ⟨by decide, by decide, by decide⟩

/-- C7 (amended): the repository's `CoverageReport` consists of exactly the three counts
`total_questions`, `found_count` and `not_found_count` — two reports agreeing on those
three are equal (there is no fourth, needs-review count). -/
theorem coverageReport_three_counts (r s : CoverageReport)
    (h1 : r.total_questions = s.total_questions) (h2 : r.found_count = s.found_count)
    (h3 : r.not_found_count = s.not_found_count) : r = s := by
  cases r; cases s; simp_all

/-- C7 witness: the empty batch's report is determined by its three counts. -/
theorem coverageReport_three_counts_witness :
    (aggregateCoverage []).total_questions = (0 : Nat) ∧
    (aggregateCoverage []).found_count = (0 : Nat) ∧
    (aggregateCoverage []).not_found_count = (0 : Nat) ∧
    aggregateCoverage [] = { total_questions := 0, found_count := 0, not_found_count := 0 } :=
  ⟨rfl, rfl, rfl, coverageReport_three_counts _ _ rfl rfl rfl⟩

/-- C8: a generation request with an empty retrieved hit set short-circuits — the item
ends `NOT_FOUND` with an empty answer and no references, and the Generation Client is
called zero times, whatever the client, parser, classifier and attempt budget are. -/
theorem empty_hits_shortcircuit (topic : String) (mark : QuestionMarks)
    (strictSourcing : Bool) (client : Nat → GenOutcome)
    (parse : String → Option ParsedPayload)
    (classify : ParsedPayload → QuestionStatus × String × List String) (maxAttempts : Nat) :
    runItemPipeline topic mark strictSourcing [] client parse classify maxAttempts =
      { status := .NOT_FOUND, answer_text := "", page_references := [], client_calls := 0 } :=
  rfl

/-- C9: the `AutoQAPreview` helpers only cover the three generation statuses — the
`statusConfig` lookup at the legal status `APPROVED` is undefined while the other three
statuses have entries, and the status-count reduction turns the `APPROVED` slot into
`NaN` as soon as an approved item is present (staying well-defined numbers otherwise). -/
theorem approved_status_nan :
    statusConfig .APPROVED = none ∧
    (∀ s : QuestionStatus, s ≠ .APPROVED → (statusConfig s).isSome = true) ∧
    (∀ items : List QAPreviewItem, (∃ it ∈ items, it.status = .APPROVED) →
        (stats items).approved = .nan) ∧
    (∀ items : List QAPreviewItem, (∀ it ∈ items, it.status ≠ .APPROVED) →
        stats items =
          { found := .num (countStatus items .FOUND)
            not_found := .num (countStatus items .NOT_FOUND)
            needs_review := .num (countStatus items .NEEDS_REVIEW)
            approved := .undef }) := by
  refine ⟨rfl, ?_, ?_, ?_⟩
  · intro s hs
    cases s <;> simp_all [statusConfig]
  · intro items hex
    rw [stats_eq]
    have hpos : 0 < countStatus items .APPROVED := by
      rcases hex with ⟨it, hmem, hst⟩
      exact List.countP_pos_iff.mpr ⟨it, hmem, by simp [hst]⟩
    have : countStatus items .APPROVED ≠ 0 := by omega
    simp [this]
  · intro items hall
    rw [stats_eq]
    have hz : countStatus items .APPROVED = 0 :=
      List.countP_eq_zero.mpr (fun it hmem => by simp [hall it hmem])
    simp [hz]

/-- C9 witness: the three declared statuses have config entries; a batch holding one
approved item accumulates `NaN` in the `APPROVED` slot, while an approved-free batch
stays numeric. -/
theorem approved_status_nan_witness :
    (statusConfig .FOUND).isSome = true ∧
    (stats [pvApproved]).approved = .nan ∧
    stats [pvFound] =
      { found := .num (countStatus [pvFound] .FOUND)
        not_found := .num (countStatus [pvFound] .NOT_FOUND)
        needs_review := .num (countStatus [pvFound] .NEEDS_REVIEW)
        approved := .undef } :=
  ⟨approved_status_nan.2.1 .FOUND (by decide),
    approved_status_nan.2.2.1 [pvApproved] ⟨pvApproved, by decide, by decide⟩,
    approved_status_nan.2.2.2 [pvFound] (by decide)⟩

/-- Dropping a prefix never lengthens a list. -/
theorem length_dropWhile_le (p : Char → Bool) (l : List Char) :
    (l.dropWhile p).length ≤ l.length := by
  induction l with
  | nil => simp
  | cons a l ih =>
    rw [List.dropWhile_cons]
    split
    · exact Nat.le_trans ih (by simp)
    · simp

/-- Right trimming never lengthens a list. -/
theorem rtrim_length_le (l : List Char) : (rtrim l).length ≤ l.length := by
  have h := length_dropWhile_le isWs l.reverse
  simpa [rtrim] using h

/-- JS `trim` never lengthens a string. -/
theorem jsTrim_length_le (l : List Char) : (jsTrim l).length ≤ l.length :=
  Nat.le_trans (length_dropWhile_le isWs (rtrim l)) (rtrim_length_le l)

/-- Right trimming swallows a trailing space. -/
theorem rtrim_snoc_space (l : List Char) : rtrim (l ++ [' ']) = rtrim l := by
  simp only [rtrim, List.reverse_append, List.reverse_cons, List.reverse_nil, List.nil_append,
    List.singleton_append]
  rw [List.dropWhile_cons_of_pos (by decide)]

/-- JS `trim` swallows a trailing space. -/
theorem jsTrim_snoc_space (l : List Char) : jsTrim (l ++ [' ']) = jsTrim l := by
  rw [jsTrim, rtrim_snoc_space, jsTrim]

/-- Invariant of the sentence-accumulation loop of `trimToSentence`: starting from an
accumulator that is empty or trims to at most `maxChars` characters, the loop result is
empty or trims to at most `maxChars` characters. -/
theorem buildOut_inv (maxChars : Nat) (ss : List (List Char)) :
    ∀ out : List Char, (out = [] ∨ (jsTrim out).length ≤ maxChars) →
      (buildOut maxChars ss out = [] ∨
        (jsTrim (buildOut maxChars ss out)).length ≤ maxChars) := by
  induction ss with
  | nil => intro out h; exact h
  | cons s rest ih =>
    intro out h
    simp only [buildOut]
    by_cases hb : maxChars < (out ++ s).length
    · rw [if_pos hb]; exact h
    · rw [if_neg hb]
      apply ih
      right
      have hlen : out.length + s.length ≤ maxChars := by
        have := Nat.not_lt.mp hb
        simpa using this
      calc (jsTrim ((out ++ jsTrim s) ++ [' '])).length
          = (jsTrim (out ++ jsTrim s)).length := by rw [jsTrim_snoc_space]
        _ ≤ (out ++ jsTrim s).length := jsTrim_length_le _
        _ = out.length + (jsTrim s).length := by simp
        _ ≤ out.length + s.length := by
            have := jsTrim_length_le s
            omega
        _ ≤ maxChars := hlen

/-- `slice(0, stop)` with a nonnegative `stop` is `take`. -/
theorem jsSliceTo_nonneg (l : List Char) (stop : Int) (h : 0 ≤ stop) :
    jsSliceTo l stop = l.take stop.toNat := by
  simp only [jsSliceTo]
  rw [if_neg (by omega)]

/-- Truncation shape of `trimToSentence`: on a too-long input the result is some prefix
material of at most `maxChars` characters followed by the ellipsis character. -/
theorem trimToSentence_shape (text : List Char) (maxChars : Nat)
    (h1 : 1 ≤ maxChars) (h2 : maxChars < text.length) :
    ∃ pre : List Char,
      trimToSentence text maxChars = pre ++ ['…'] ∧ pre.length ≤ maxChars := by
  have hnot : ¬ text.length ≤ maxChars := by omega
  have hinv := buildOut_inv maxChars (sentencesOf text) [] (Or.inl rfl)
  simp only [trimToSentence, if_neg hnot]
  by_cases hE : jsTrim (buildOut maxChars (sentencesOf text) []) = []
  · rw [if_pos hE]
    refine ⟨_, rfl, ?_⟩
    have hstop : (0 : Int) ≤ (maxChars : Int) - 1 := by omega
    have htoNat : ((maxChars : Int) - 1).toNat = maxChars - 1 := by omega
    have hslice : (jsSliceTo text ((maxChars : Int) - 1)).length ≤ maxChars - 1 := by
      rw [jsSliceTo_nonneg text _ hstop, List.length_take, htoNat]
      omega
    set slice := jsSliceTo text ((maxChars : Int) - 1) with hs
    have hcand : (if (40 : Int) < jsLastIndexOf slice ' ' then
        slice.take (jsLastIndexOf slice ' ').toNat else slice).length ≤ maxChars - 1 := by
      split
      · exact Nat.le_trans (by rw [List.length_take]; omega) hslice
      · exact hslice
    exact Nat.le_trans (Nat.le_trans (jsTrim_length_le _) hcand) (by omega)
  · rw [if_neg hE]
    rcases hinv with hnil | hle
    · exact absurd (by rw [hnil]; rfl) hE
    · have hlt : (jsTrim (buildOut maxChars (sentencesOf text) [])).length < text.length := by
        omega
      rw [if_pos hlt]
      exact ⟨_, rfl, hle⟩

/-- C10: for every text longer than `maxChars ≥ 1`, `trimToSentence` returns at most
`maxChars + 1` characters and the last character is the ellipsis `…`. -/
theorem trimToSentence_truncates (text : List Char) (maxChars : Nat)
    (h1 : 1 ≤ maxChars) (h2 : maxChars < text.length) :
    (trimToSentence text maxChars).length ≤ maxChars + 1 ∧
    (trimToSentence text maxChars).getLast? = some '…' := by
  rcases trimToSentence_shape text maxChars h1 h2 with ⟨pre, heq, hlen⟩
  rw [heq]
  constructor
  · simp only [List.length_append, List.length_singleton]
    omega
  · simp

/-- C10 witness: a 13-character text trimmed to 7 characters keeps its first sentence
and ends with the ellipsis. -/
theorem trimToSentence_truncates_witness :
    1 ≤ 7 ∧ 7 < ("Hi. Bye. Zed.".toList).length ∧
    ((trimToSentence ("Hi. Bye. Zed.".toList) 7).length ≤ 7 + 1 ∧
      (trimToSentence ("Hi. Bye. Zed.".toList) 7).getLast? = some '…') :=
  ⟨by decide, by decide, trimToSentence_truncates ("Hi. Bye. Zed.".toList) 7 (by decide) (by decide)⟩

end NotesToMaterial
